import Mathlib

/-!
Shallow embedding of the pixelguard detection engine
(`src/pixelguard/detectors/*.py`, `src/pixelguard/core/*.py`,
`src/pixelguard/analyzers/batch.py`, `src/pixelguard/utils/image_utils.py`).

Modelling conventions, used throughout:
  * Python floats are modelled as exact rationals (`ℚ`); Python ints as `ℤ`
    (`Nat` for lengths/shapes).  Overflow and rounding of IEEE doubles are
    outside the claims checked here.
  * A value that may be NaN or ±infinity is modelled as `Option ℚ`
    (`none` = non-finite), mirroring the `np.isfinite` masks in the source.
  * numpy's true division of a count by a zero length yields NaN in Python;
    in `ℚ` division by zero yields `0`.  Both compare `False`/`false` against
    the positive thresholds involved in every claim, so the detector outcomes
    agree; this is noted at each site.
  * A raised Python exception is modelled as `Except.error msg`; the
    `try/except` blocks of the detectors are modelled by `guardDetect`.
  * Python dicts (the result `details`) are modelled as association lists in
    insertion order.
  * Image buffers are modelled already 8-bit-integer-typed (`ensureUint8`
    clips integer data to `[0, 255]`; the float-scaling branch of
    `ensure_uint8` is not exercised by any claim).
-/

namespace Pixelguard

/-! ### Kernel-computable rational arithmetic

The library's `Rat.add/mul/inv/...` are `@[irreducible]`, so concrete
evaluation (`decide`/`rfl` on witnesses and counterexamples) cannot unfold
them.  The embedding therefore computes through `Rat.divInt`-based helpers,
each proved equal to the standard operation. -/

/-- `a * b` on `ℚ`, kernel-computable. -/
def pyMul (a b : ℚ) : ℚ := Rat.divInt (a.num * b.num) ((a.den : ℤ) * (b.den : ℤ))

/-- `a + b` on `ℚ`, kernel-computable. -/
def pyAdd (a b : ℚ) : ℚ :=
  Rat.divInt (a.num * (b.den : ℤ) + b.num * (a.den : ℤ)) ((a.den : ℤ) * (b.den : ℤ))

/-- `a - b` on `ℚ`, kernel-computable. -/
def pySub (a b : ℚ) : ℚ := pyAdd a (-b)

/-- `a / b` on `ℚ` (with `a / 0 = 0`), kernel-computable. -/
def pyDiv (a b : ℚ) : ℚ := Rat.divInt (a.num * (b.den : ℤ)) ((a.den : ℤ) * b.num)

/-- `|a|` on `ℚ`, kernel-computable. -/
def pyAbs (a : ℚ) : ℚ := if a < 0 then -a else a

/-- `l.sum` on `ℚ`, kernel-computable. -/
def pySum (l : List ℚ) : ℚ := l.foldr pyAdd 0

/-- Round half up (what `round` does on `ℚ`), kernel-computable. -/
def pyRound (q : ℚ) : ℤ := ⌊pyAdd q (Rat.divInt 1 2)⌋

lemma pyMul_eq (a b : ℚ) : pyMul a b = a * b := by
  unfold pyMul
  rw [Rat.divInt_eq_div]
  push_cast
  rw [← div_mul_div_comm, Rat.num_div_den, Rat.num_div_den]

lemma pyAdd_eq (a b : ℚ) : pyAdd a b = a + b := by
  unfold pyAdd
  have ha : ((a.den : ℚ)) ≠ 0 := Nat.cast_ne_zero.mpr a.den_nz
  have hb : ((b.den : ℚ)) ≠ 0 := Nat.cast_ne_zero.mpr b.den_nz
  rw [Rat.divInt_eq_div]
  push_cast
  conv_rhs => rw [← Rat.num_div_den a, ← Rat.num_div_den b]
  rw [div_add_div _ _ ha hb]
  ring_nf

lemma pySub_eq (a b : ℚ) : pySub a b = a - b := by
  rw [pySub, pyAdd_eq, sub_eq_add_neg]

lemma pyDiv_eq (a b : ℚ) : pyDiv a b = a / b := by
  by_cases hb : b = 0
  · subst hb
    simp [pyDiv, Rat.divInt_zero]
  · have hbnum : b.num ≠ 0 := Rat.num_ne_zero.mpr hb
    unfold pyDiv
    rw [Rat.divInt_eq_div]
    push_cast
    conv_rhs => rw [← Rat.num_div_den a, ← Rat.num_div_den b]
    rw [div_div_eq_mul_div, div_mul_eq_mul_div, div_div]

lemma pyAbs_eq (a : ℚ) : pyAbs a = |a| := by
  unfold pyAbs
  by_cases h : a < 0
  · rw [if_pos h, abs_of_neg h]
  · rw [if_neg h, abs_of_nonneg (le_of_not_lt h)]

lemma pySum_eq (l : List ℚ) : pySum l = l.sum := by
  induction l with
  | nil => rfl
  | cons x xs ih => rw [pySum, List.foldr_cons, ← pySum, ih, pyAdd_eq, List.sum_cons]

lemma pyRound_eq (q : ℚ) : pyRound q = round q := by
  rw [pyRound, pyAdd_eq, round_eq]
  norm_num [Rat.divInt_eq_div]

/-! ### Kernel-computable string helpers

`String.trim`, `String.splitOn` and `String.toLower` do not reduce in the
kernel (byte-position machinery), so Python's `str.strip`, `str.split` and
`str.lower` are modelled on `List Char`. -/

/-- Python `s.strip()` (whitespace at both ends). -/
def stripChars (cs : List Char) : List Char :=
  ((cs.dropWhile Char.isWhitespace).reverse.dropWhile Char.isWhitespace).reverse

/-- Python `s.split(sep)` for a one-character separator (`"".split(sep)` is
`[""]`). -/
def splitOnChar (sep : Char) : List Char → List (List Char)
  | [] => [[]]
  | c :: rest =>
      if c = sep then [] :: splitOnChar sep rest
      else
        match splitOnChar sep rest with
        | [] => [[c]]
        | part :: parts => (c :: part) :: parts

/-- Python `s.lower()` (ASCII is all the parser compares). -/
def lowerChars (cs : List Char) : List Char := cs.map Char.toLower

/-- Python value stored in a `details` dict (`dict[str, Any]` in the source). -/
inductive PyVal where
  | str : String → PyVal
  | int : ℤ → PyVal
  | rat : ℚ → PyVal
  | bool : Bool → PyVal
  | tup : List PyVal → PyVal
  | list : List PyVal → PyVal
  | dict : List (String × PyVal) → PyVal

/-- `core/models.py` `DetectionResult` dataclass. -/
structure DetectionResult where
  detector_name : String
  is_problematic : Bool
  confidence : ℚ
  details : List (String × PyVal)
  issues : List String

/-- `BaseDetector._create_result` (`detectors/base.py` lines 23-38): builds a
`DetectionResult`, clamping confidence with `max(0.0, min(1.0, confidence))`.
The Python defaults `details or {}` / `issues or []` are modelled by `Option`
arguments (`none` = `None`; a falsy empty dict/list maps to itself either way). -/
def createResult (name : String) (is_problematic : Bool) (confidence : ℚ)
    (details : Option (List (String × PyVal))) (issues : Option (List String)) :
    DetectionResult :=
  { detector_name := name
    is_problematic := is_problematic
    confidence := max 0 (min 1 confidence)
    details := details.getD []
    issues := issues.getD [] }

/-- `BaseDetector._create_error_result` (`detectors/base.py` lines 40-48):
an exception `error` with kind `error_type` becomes a maximally-problematic
result. -/
def createErrorResult (name : String) (error : String) (error_type : String) :
    DetectionResult :=
  createResult name true 1
    (some [("error_type", PyVal.str error_type), ("error_message", PyVal.str error)])
    (some [name ++ " detection failed: " ++ error])

/-- The fully evaluated shape of `createErrorResult` (confidence 1 survives the
clamp).  Used to state the error-conversion claims. -/
def errResult (name : String) (error_type : String) (error : String) :
    DetectionResult :=
  { detector_name := name
    is_problematic := true
    confidence := 1
    details := [("error_type", PyVal.str error_type), ("error_message", PyVal.str error)]
    issues := [name ++ " detection failed: " ++ error] }

/-- `core/models.py` `ImageAnalysis` dataclass. -/
structure ImageAnalysis where
  file_path : String
  width : ℤ
  height : ℤ
  detection_results : List DetectionResult
  is_problematic : Bool

/-- `ImageAnalysis.add_detection_result` (`core/models.py` lines 23-26). -/
def addDetectionResult (a : ImageAnalysis) (r : DetectionResult) : ImageAnalysis :=
  { a with
    detection_results := a.detection_results ++ [r]
    is_problematic := if r.is_problematic then true else a.is_problematic }

/-- `core/models.py` `BatchSummary` dataclass (Python ints). -/
structure BatchSummary where
  total_images : ℤ
  problematic_images : ℤ
  passed_images : ℤ
  deriving DecidableEq

/-- `BatchAnalyzer._create_batch_summary` (`analyzers/batch.py` lines 42-50). -/
def createBatchSummary (image_analyses : List ImageAnalysis) : BatchSummary :=
  let problematic_image_count : ℤ := image_analyses.countP (·.is_problematic)
  let total_image_count : ℤ := image_analyses.length
  { total_images := total_image_count
    problematic_images := problematic_image_count
    passed_images := total_image_count - problematic_image_count }

/-! ### Image buffers and `utils/image_utils.py` -/

/-- A numpy array handed to `detect`.  Ranks below 2 are rejected by
`validate_image`; rank 2 is single-channel (grayscale); rank 3 carries `c`
channels per pixel (innermost list, length `c` by convention). -/
inductive PyImg where
  | rank0 : ℤ → PyImg
  | rank1 : List ℤ → PyImg
  | gray : List (List ℤ) → PyImg
  | multi : Nat → List (List (List ℤ)) → PyImg

/-- `validate_image` (`utils/image_utils.py` lines 104-111): non-`None`, has a
shape, rank at least 2. -/
def validateImage : Option PyImg → Bool
  | none => false
  | some (PyImg.rank0 _) => false
  | some (PyImg.rank1 _) => false
  | some (PyImg.gray _) => true
  | some (PyImg.multi _ _) => true

/-- `ensure_uint8` on integer-typed data: `np.clip(image, 0, 255)`. -/
def clip255 (v : ℤ) : ℤ := max 0 (min 255 v)

/-- OpenCV's fixed-point BGR→gray luma: `(B*1868 + G*9617 + R*4899 + 2^13) >> 14`,
computed on the first three channels (the alpha channel of 4-channel input is
ignored, as in `cv2.COLOR_BGR2GRAY`). -/
def bgrLuma : List ℤ → ℤ
  | b :: g :: r :: _ =>
      (clip255 b * 1868 + clip255 g * 9617 + clip255 r * 4899 + 8192) / 16384
  | _ => 0

/-- `convert_to_grayscale` (`utils/image_utils.py` lines 20-25): rank-3 data
goes through `cv2.cvtColor(..., COLOR_BGR2GRAY)` (which raises unless the
channel count is 3 or 4); rank-2 data is returned unchanged (clipped to uint8).
The rank-0/1 cases are unreachable behind `validate_image`; the subsequent
shape unpack in the detector would raise, modelled as an error. -/
def convertToGrayscale : PyImg → Except String (List (List ℤ))
  | PyImg.gray rows => Except.ok (rows.map (·.map clip255))
  | PyImg.multi c rows =>
      if c = 3 ∨ c = 4 then Except.ok (rows.map (·.map bgrLuma))
      else Except.error "Invalid number of channels in input image"
  | _ => Except.error "not enough values to unpack"

/-- A pixel after normalization, one `Option ℚ` per channel
(`none` models a non-finite float; pixels read from integer buffers are
always finite). -/
abbrev FPix := Option ℚ × Option ℚ × Option ℚ

/-- `ensure_3channel_bgr` (`utils/image_utils.py` lines 28-44): grayscale is
replicated to three channels, 4-channel input drops alpha, any other channel
count raises `ValueError`.  (The `image is None` raise is shadowed by
`validate_image` in every caller modelled here.) -/
def ensure3ChannelBGR : PyImg → Except String (List (List FPix))
  | PyImg.gray rows =>
      Except.ok (rows.map (·.map (fun v =>
        let u := clip255 v
        ((some (u : ℚ), some (u : ℚ), some (u : ℚ)) : FPix))))
  | PyImg.multi c rows =>
      if c = 3 ∨ c = 4 then
        Except.ok (rows.map (·.map (fun px =>
          match px with
          | b :: g :: r :: _ =>
              ((some ((clip255 b : ℤ) : ℚ), some ((clip255 g : ℤ) : ℚ),
                some ((clip255 r : ℤ) : ℚ)) : FPix)
          | _ => ((some 0, some 0, some 0) : FPix))))
      else Except.error "Unsupported image shape"
  | _ => Except.error "Unsupported image shape"

/-- numpy `height, width = image.shape[:2]`. -/
def shapeHW : PyImg → Nat × Nat
  | PyImg.rank0 _ => (0, 0)
  | PyImg.rank1 xs => (xs.length, 0)
  | PyImg.gray rows => (rows.length, (rows.head?.map List.length).getD 0)
  | PyImg.multi _ rows => (rows.length, (rows.head?.map List.length).getD 0)

/-- Width of a normalized pixel grid (`image.shape[1]`). -/
def gridWidth (rows : List (List FPix)) : Nat :=
  (rows.head?.map List.length).getD 0

/-- `int(x)` for a nonnegative Python float: truncation = floor. -/
def pyIntNat (q : ℚ) : Nat := ⌊q⌋.toNat

/-- Python slice `xs[m:-m]`: the indices `m ≤ i < len - m` — except that for
`m = 0` the literal `-0` is `0`, so `xs[0:0]` is *empty*.  This quirk is what
claims about zero-rounded edge margins hinge on. -/
def npSliceMargin (m : Nat) (xs : List α) : List α :=
  if m = 0 then [] else (xs.take (xs.length - m)).drop m

/-! ### Detector guard (`BaseDetector` + the `try/except` in every `detect`) -/

/-- The shared shape of every concrete `detect`: reject invalid images, run the
body, and convert any raised exception into an error result.  `detect` never
raises: its Lean type is total. -/
def guardDetect (name : String) (error_type : String) (img : Option PyImg)
    (body : PyImg → Except String DetectionResult) : DetectionResult :=
  match img with
  | none => createErrorResult name "Invalid image provided" "invalid_image"
  | some im =>
      if validateImage (some im) then
        match body im with
        | Except.ok r => r
        | Except.error e => createErrorResult name e error_type
      else createErrorResult name "Invalid image provided" "invalid_image"

/-! ### `core/config.py` dataclasses (field defaults = the dataclass defaults,
which are exactly the `default` detection mode: `from_mode` falls through to
`DetectionConfig()` for `DetectionMode.DEFAULT`). -/

/-- `BorderFillConfig`. -/
structure BorderFillConfig where
  top_region_percentage : ℚ := Rat.divInt 1 10
  bottom_region_percentage : ℚ := Rat.divInt 1 10
  black_threshold : ℤ := 1
  white_threshold : ℤ := 255
  black_fill_threshold : ℚ := Rat.divInt 1 20
  white_fill_threshold : ℚ := Rat.divInt 1 20
  check_top : Bool := false
  check_bottom : Bool := true
  uniformity_required : ℚ := Rat.divInt 9 10
  deriving DecidableEq

/-- `UniformColorConfig`. -/
structure UniformColorConfig where
  color_delta_threshold : ℤ := 15
  color_space : String := "LAB"
  uniform_coverage_threshold : ℚ := Rat.divInt 17 20
  sample_size : ℤ := 1000
  ignore_edges : Bool := true
  edge_ignore_percentage : ℚ := Rat.divInt 1 50
  deriving DecidableEq

/-- `BackgroundDetectionConfig`. -/
structure BackgroundDetectionConfig where
  detection_method : String := "edge_based"
  corner_sample_percentage : ℚ := Rat.divInt 2 25
  edge_sample_percentage : ℚ := Rat.divInt 1 20
  background_coverage_threshold : ℚ := Rat.divInt 13 20
  background_color_tolerance : ℤ := 25
  histogram_bins : ℤ := 64
  dominant_color_threshold : ℚ := Rat.divInt 3 5
  deriving DecidableEq

/-- `RatioConfig`. -/
structure RatioConfig where
  enabled : Bool := true
  target_ratios : List (ℚ × ℚ) := [(16, 9), (4, 3), (1, 1), (3, 4), (9, 16)]
  tolerance : ℚ := Rat.divInt 1 10
  check_minimum_dimensions : Bool := true
  minimum_width : ℤ := 100
  minimum_height : ℤ := 100
  check_maximum_dimensions : Bool := false
  maximum_width : ℤ := 10000
  maximum_height : ℤ := 10000
  deriving DecidableEq

/-- `DetectionConfig`. -/
structure DetectionConfig where
  border_fill : BorderFillConfig := {}
  uniform_color : UniformColorConfig := {}
  background : BackgroundDetectionConfig := {}
  ratio : RatioConfig := {}
  enabled_detectors : List String := ["border_fill", "uniform_color", "background", "ratio"]
  deriving DecidableEq

/-! ### String formatting helpers

Python's `f"{x:.1f}"` / `f"{x:.3f}"` on a float, modelled in exact rational
arithmetic (round half up instead of the double's round-half-even; the two
agree on every value appearing in a claim). -/

/-- Fixed-point rendering of a nonnegative `ℚ` with `prec` decimals. -/
def fmtFixed (prec : Nat) (q : ℚ) : String :=
  let n : ℤ := pyRound (pyMul q (Rat.divInt ((10 : ℤ) ^ prec) 1))
  let ip := n / (10 : ℤ) ^ prec
  let fp := (n % (10 : ℤ) ^ prec).toNat
  let fpStr := toString fp
  let pad := String.mk (List.replicate (prec - fpStr.length) '0')
  toString ip ++ "." ++ pad ++ fpStr

/-- `f"{q*100:.1f}"`. -/
def fmtPct1 (q : ℚ) : String := fmtFixed 1 (pyMul q 100)

/-- How Python renders a target-ratio component in the "Closest" annotation:
intact integers print bare (the default ratio tuples are ints); anything else
is rendered as an exact fraction (stand-in for the float repr). -/
def ratioComponentStr (q : ℚ) : String :=
  if q.den = 1 then toString q.num else toString q

/-! ### `detectors/border_fill.py` -/

/-- The dict returned by `BorderFillDetector._analyze_border_region`
(lines 67-94). -/
structure BorderRegionAnalysis where
  region : String
  black_percentage : ℚ
  is_problematic : Bool
  issues : List String

/-- `_analyze_border_region`'s dict, as stored into the result details. -/
def borderRegionToPyVal (a : BorderRegionAnalysis) : PyVal :=
  PyVal.dict
    [("region", PyVal.str a.region),
     ("black_percentage", PyVal.rat a.black_percentage),
     ("is_problematic", PyVal.bool a.is_problematic),
     ("issues", PyVal.list (a.issues.map PyVal.str))]

/-- `_extract_region_pixels` (lines 96-104).  Note the numpy quirk: the bottom
slice `image[-region_height:]` with `region_height = 0` is `image[0:]`, the
*whole* image. -/
def extractRegionPixels (cfg : BorderFillConfig) (gray : List (List ℤ))
    (region_name : String) : List (List ℤ) :=
  let height := gray.length
  if region_name = "top" then
    let region_height := pyIntNat (pyMul (height : ℚ) cfg.top_region_percentage)
    gray.take region_height
  else
    let region_height := pyIntNat (pyMul (height : ℚ) cfg.bottom_region_percentage)
    if region_height = 0 then gray else gray.drop (height - region_height)

/-- Pixel count of a region (`region_pixels.size`). -/
def regionSize (region : List (List ℤ)) : Nat := (region.map List.length).sum

/-- Pixels of the region strictly below a luminance threshold. -/
def countBelow (threshold : ℤ) (region : List (List ℤ)) : Nat :=
  (region.map (·.countP (fun v => decide (v < threshold)))).sum

/-- Pixels of the region strictly above a luminance threshold. -/
def countAbove (threshold : ℤ) (region : List (List ℤ)) : Nat :=
  (region.map (·.countP (fun v => decide (v > threshold)))).sum

/-- `_calculate_black_pixel_percentage` (lines 106-110).  An empty region gives
numpy NaN; here `0/0 = 0`, and both compare false against the positive fill
thresholds of every claim. -/
def calculateBlackPixelPercentage (cfg : BorderFillConfig)
    (region : List (List ℤ)) : ℚ :=
  pyDiv (countBelow cfg.black_threshold region : ℚ) (regionSize region : ℚ)

/-- `_calculate_white_pixel_percentage` (lines 112-116).  Defined in the source
but never called from `detect`. -/
def calculateWhitePixelPercentage (cfg : BorderFillConfig)
    (region : List (List ℤ)) : ℚ :=
  pyDiv (countAbove cfg.white_threshold region : ℚ) (regionSize region : ℚ)

/-- `_has_uniform_color_fill` (lines 118-133). -/
def hasUniformColorFill (cfg : BorderFillConfig) (region : List (List ℤ))
    (color_type : String) : Bool :=
  let threshold :=
    if color_type = "black" then cfg.black_threshold else cfg.white_threshold
  let matching_pixel_count :=
    if color_type = "black" then countBelow threshold region
    else countAbove threshold region
  decide (pyDiv (matching_pixel_count : ℚ) (regionSize region : ℚ) ≥
    cfg.uniformity_required)

/-- `_analyze_border_region` (lines 67-94): only *black* fill is ever checked. -/
def analyzeBorderRegion (cfg : BorderFillConfig) (gray : List (List ℤ))
    (region_name : String) : BorderRegionAnalysis :=
  let region_pixels := extractRegionPixels cfg gray region_name
  let black_fill_percentage := calculateBlackPixelPercentage cfg region_pixels
  let flagged :=
    decide (black_fill_percentage > cfg.black_fill_threshold) &&
      hasUniformColorFill cfg region_pixels "black"
  { region := region_name
    black_percentage := black_fill_percentage
    is_problematic := flagged
    issues :=
      if flagged then
        [region_name.capitalize ++ " border has black fill: " ++
          fmtPct1 black_fill_percentage ++ "%"]
      else [] }

/-- `_calculate_confidence_score` (lines 135-141): flagged regions over checked
regions, `0.0` when none checked. -/
def borderConfidenceScore (cfg : BorderFillConfig)
    (problematic_region_count : Nat) : ℚ :=
  let total_region_count : Nat :=
    (if cfg.check_top then 1 else 0) + (if cfg.check_bottom then 1 else 0)
  if total_region_count > 0 then
    pyDiv (problematic_region_count : ℚ) (total_region_count : ℚ)
  else 0

/-- The `try` body of `BorderFillDetector.detect` (lines 23-59). -/
def borderFillBody (cfg : BorderFillConfig) (im : PyImg) :
    Except String DetectionResult := do
  let grayscale_image ← convertToGrayscale im
  let topPart :=
    if cfg.check_top then [analyzeBorderRegion cfg grayscale_image "top"] else []
  let bottomPart :=
    if cfg.check_bottom then [analyzeBorderRegion cfg grayscale_image "bottom"] else []
  let detected_issues :=
    (topPart.map (·.issues)).flatten ++ (bottomPart.map (·.issues)).flatten
  let analysis_details :=
    (topPart.map (fun a => ("top_border", borderRegionToPyVal a))) ++
      (bottomPart.map (fun a => ("bottom_border", borderRegionToPyVal a)))
  let problematic_region_count :=
    (topPart.countP (·.is_problematic)) + (bottomPart.countP (·.is_problematic))
  let has_border_issues := decide (detected_issues.length > 0)
  let detection_confidence := borderConfidenceScore cfg problematic_region_count
  return createResult "border_fill" has_border_issues detection_confidence
    (some analysis_details) (some detected_issues)

/-- `BorderFillDetector.detect` (lines 17-62). -/
def borderFillDetect (cfg : BorderFillConfig) (img : Option PyImg) :
    DetectionResult :=
  guardDetect "border_fill" "border_fill_error" img (borderFillBody cfg)

/-! ### `detectors/uniform_color.py`

The two numeric collaborators that are genuinely external — which pixels
`np.random.choice` picks, and what `convert_color_space`'s cv2 transform does
to a non-empty sample — are passed in as function parameters (`subsample`,
`convertF`); every claim holds for all of them.  The `len(pixels) == 0` early
return of `convert_color_space` (`utils/image_utils.py` lines 48-49) and the
whole surrounding control flow are modelled exactly. -/

/-- A pixel is "valid" when every channel is finite
(`np.isfinite(...).all(axis=1)`). -/
def validPixels (pixels : List FPix) : List (ℚ × ℚ × ℚ) :=
  pixels.filterMap (fun p =>
    match p with
    | (some a, some b, some c) => some (a, b, c)
    | _ => none)

/-- Channel-wise mean of a list of finite pixels (`np.mean(..., axis=0)`). -/
def meanPixel (l : List (ℚ × ℚ × ℚ)) : FPix :=
  (some (pyDiv (pySum (l.map (·.1))) (l.length : ℚ)),
   some (pyDiv (pySum (l.map (·.2.1))) (l.length : ℚ)),
   some (pyDiv (pySum (l.map (·.2.2))) (l.length : ℚ)))

/-- `UniformColorDetector._find_dominant_color_with_kmeans` (lines 91-115).
`KMeans(n_clusters=1)` converges to the arithmetic mean of its input, so the
single-cluster centroid is modelled exactly as the mean of the valid pixels
(the sklearn call is seeded, `random_state=42`, and deterministic). -/
def findDominantColor (color_space_pixels : List FPix) : FPix :=
  if color_space_pixels.isEmpty then (some 0, some 0, some 0)
  else
    let valid := validPixels color_space_pixels
    if valid.isEmpty then (some 0, some 0, some 0)
    else if valid.length < 2 then meanPixel valid
    else meanPixel valid

/-- Per-channel (Chebyshev) closeness to the dominant color:
`np.all(np.abs(valid_pixels - most_common_color) <= color_tolerance, axis=1)`. -/
def chebyshevClose (tol : ℚ) (dom : ℚ × ℚ × ℚ) (p : ℚ × ℚ × ℚ) : Bool :=
  decide (pyAbs (pySub p.1 dom.1) ≤ tol) &&
    decide (pyAbs (pySub p.2.1 dom.2.1) ≤ tol) &&
    decide (pyAbs (pySub p.2.2 dom.2.2) ≤ tol)

/-- `_calculate_color_uniformity_coverage` (lines 117-138).  The valid mask is
the per-pixel finiteness mask AND-ed with the (broadcast) finiteness of the
dominant color; if nothing passes the mask the coverage is `0.0`. -/
def calculateColorUniformityCoverage (color_tolerance : ℤ)
    (color_space_pixels : List FPix) (most_common_color : FPix) : ℚ :=
  if color_space_pixels.isEmpty then 0
  else
    match most_common_color with
    | (some d1, some d2, some d3) =>
        let valid := validPixels color_space_pixels
        if valid.isEmpty then 0
        else
          pyDiv (valid.countP (chebyshevClose (color_tolerance : ℚ) (d1, d2, d3)) : ℚ)
            (valid.length : ℚ)
    | _ => 0

/-- `_limit_sample_size_if_needed` (lines 80-86).  `np.random.choice` is the
`subsample` parameter; it raises `ValueError` when asked for a negative count. -/
def limitSampleSize (sample_size : ℤ) (subsample : List FPix → List FPix)
    (pixels : List FPix) : Except String (List FPix) :=
  if (pixels.length : ℤ) > sample_size then
    if sample_size < 0 then Except.error "negative dimensions are not allowed"
    else Except.ok (subsample pixels)
  else Except.ok pixels

/-- `_extract_representative_pixels` (lines 65-78): with `ignore_edges`, crop
`image[vm:-vm, hm:-hm]` (empty when either margin rounds to zero — numpy's
`-0`), flatten, then subsample. -/
def extractRepresentativePixels (cfg : UniformColorConfig)
    (subsample : List FPix → List FPix) (rows : List (List FPix)) :
    Except String (List FPix) :=
  let height := rows.length
  let width := gridWidth rows
  let all_pixels :=
    if cfg.ignore_edges then
      let vertical_margin := pyIntNat (pyMul (height : ℚ) cfg.edge_ignore_percentage)
      let horizontal_margin := pyIntNat (pyMul (width : ℚ) cfg.edge_ignore_percentage)
      ((npSliceMargin vertical_margin rows).map
        (npSliceMargin horizontal_margin)).flatten
    else rows.flatten
  limitSampleSize cfg.sample_size subsample all_pixels

/-- `convert_color_space` as invoked from the detector: empty input is
returned unchanged; a non-empty sample goes through the cv2 transform
(`convertF`). -/
def convertColorSpacePixels (convertF : List FPix → List FPix)
    (pixels : List FPix) : List FPix :=
  if pixels.isEmpty then pixels else convertF pixels

/-- `most_common_color.tolist()` as stored into the details dict (always
finite where reached). -/
def fpixToPyVal (p : FPix) : PyVal :=
  PyVal.list
    [PyVal.rat (p.1.getD 0), PyVal.rat (p.2.1.getD 0), PyVal.rat (p.2.2.getD 0)]

/-- The issue string of lines 49-53:
`f"Image is {p:.1%} uniform color (threshold: {t:.1%})"`. -/
def uniformIssueMsg (coverage threshold : ℚ) : String :=
  "Image is " ++ fmtPct1 coverage ++ "% uniform color (threshold: " ++
    fmtPct1 threshold ++ "%)"

/-- Lines 28-60 of `UniformColorDetector.detect`, from the point the sample has
been converted to the target color space: dominant color, coverage, threshold
comparison, details, issue. -/
def uniformColorResultCore (cfg : UniformColorConfig)
    (color_space_pixels : List FPix) (sample_count total_pixel_count : Nat) :
    DetectionResult :=
  let most_common_color := findDominantColor color_space_pixels
  let uniformity_percentage :=
    calculateColorUniformityCoverage cfg.color_delta_threshold
      color_space_pixels most_common_color
  let exceeds_threshold :=
    decide (uniformity_percentage ≥ cfg.uniform_coverage_threshold)
  let analysis_details :=
    [("uniformity_percentage", PyVal.rat uniformity_percentage),
     ("most_common_color", fpixToPyVal most_common_color),
     ("color_space", PyVal.str cfg.color_space),
     ("sample_count", PyVal.int sample_count),
     ("total_pixel_count", PyVal.int total_pixel_count),
     ("color_tolerance", PyVal.int cfg.color_delta_threshold),
     ("threshold", PyVal.rat cfg.uniform_coverage_threshold)]
  let detected_issues :=
    if exceeds_threshold then
      [uniformIssueMsg uniformity_percentage cfg.uniform_coverage_threshold]
    else []
  createResult "uniform_color" exceeds_threshold uniformity_percentage
    (some analysis_details) (some detected_issues)

/-- The `try` body of `UniformColorDetector.detect` (lines 21-60). -/
def uniformColorBody (cfg : UniformColorConfig)
    (subsample convertF : List FPix → List FPix) (im : PyImg) :
    Except String DetectionResult := do
  let normalized_image ← ensure3ChannelBGR im
  let total_pixel_count := normalized_image.length * gridWidth normalized_image
  let sampled_pixels ← extractRepresentativePixels cfg subsample normalized_image
  let color_space_pixels := convertColorSpacePixels convertF sampled_pixels
  return uniformColorResultCore cfg color_space_pixels sampled_pixels.length
    total_pixel_count

/-- `UniformColorDetector.detect` (lines 15-63). -/
def uniformColorDetect (cfg : UniformColorConfig)
    (subsample convertF : List FPix → List FPix) (img : Option PyImg) :
    DetectionResult :=
  guardDetect "uniform_color" "uniform_color_detection_error" img
    (uniformColorBody cfg subsample convertF)

/-! ### `detectors/ratio.py` -/

/-- `_validate_minimum_dimensions` (lines 67-77). -/
def validateMinimumDimensions (cfg : RatioConfig) (width height : Nat) :
    List String :=
  (if (width : ℤ) < cfg.minimum_width then
    ["Width " ++ toString width ++ " is below minimum " ++ toString cfg.minimum_width]
  else []) ++
  (if (height : ℤ) < cfg.minimum_height then
    ["Height " ++ toString height ++ " is below minimum " ++ toString cfg.minimum_height]
  else [])

/-- `_validate_maximum_dimensions` (lines 79-89). -/
def validateMaximumDimensions (cfg : RatioConfig) (width height : Nat) :
    List String :=
  (if (width : ℤ) > cfg.maximum_width then
    ["Width " ++ toString width ++ " exceeds maximum " ++ toString cfg.maximum_width]
  else []) ++
  (if (height : ℤ) > cfg.maximum_height then
    ["Height " ++ toString height ++ " exceeds maximum " ++ toString cfg.maximum_height]
  else [])

/-- `_validate_dimension_constraints` (lines 54-65). -/
def validateDimensionConstraints (cfg : RatioConfig) (width height : Nat) :
    List String :=
  (if cfg.check_minimum_dimensions then validateMinimumDimensions cfg width height
   else []) ++
  (if cfg.check_maximum_dimensions then validateMaximumDimensions cfg width height
   else [])

/-- The scan loop of `_find_closest_target_ratio` (lines 115-126), carrying
`closest_ratio_tuple` and `smallest_difference` (`none` = `float("inf")`). -/
def findClosestGo (tolerance actual_ratio : ℚ) :
    List (ℚ × ℚ) → Option (ℚ × ℚ) → Option ℚ → Option (ℚ × ℚ)
  | [], closest, _ => closest
  | (target_width, target_height) :: rest, closest, smallest =>
      let difference := pyAbs (pySub actual_ratio (pyDiv target_width target_height))
      if difference ≤ tolerance then some (target_width, target_height)
      else if (match smallest with
               | none => true
               | some s => decide (difference < s)) then
        findClosestGo tolerance actual_ratio rest (some (target_width, target_height))
          (some difference)
      else findClosestGo tolerance actual_ratio rest closest smallest

/-- `_find_closest_target_ratio` (lines 108-126): first target within
tolerance short-circuits; otherwise the strictly-improving scan keeps the
first target attaining the minimum absolute difference. -/
def findClosestTargetRatio (cfg : RatioConfig) (actual_ratio : ℚ) :
    Option (ℚ × ℚ) :=
  if cfg.target_ratios.isEmpty then none
  else findClosestGo cfg.tolerance actual_ratio cfg.target_ratios none none

/-- `_is_ratio_within_tolerance` (lines 128-131). -/
def isRatioWithinTolerance (cfg : RatioConfig) (actual_ratio target_ratio : ℚ) : Bool :=
  decide (pyAbs (pySub actual_ratio target_ratio) ≤ cfg.tolerance)

/-- The violation text of line 96. -/
def ratioMismatchMsg (actual_ratio : ℚ) : String :=
  "Ratio " ++ fmtFixed 3 actual_ratio ++ " doesn't match any target ratios"

/-- The violation text of lines 101-104, with the "Closest" annotation. -/
def ratioClosestMsg (actual_ratio : ℚ) (closest : ℚ × ℚ) : String :=
  ratioMismatchMsg actual_ratio ++ ". Closest: " ++
    fmtFixed 3 (pyDiv closest.1 closest.2) ++ " (" ++ ratioComponentStr closest.1 ++
    ":" ++ ratioComponentStr closest.2 ++ ")"

/-- `_validate_aspect_ratio_compliance` (lines 91-106). -/
def validateAspectRatioCompliance (cfg : RatioConfig) (actual_ratio : ℚ) :
    List String :=
  match findClosestTargetRatio cfg actual_ratio with
  | none => [ratioMismatchMsg actual_ratio]
  | some closest =>
      if isRatioWithinTolerance cfg actual_ratio (pyDiv closest.1 closest.2) then []
      else [ratioClosestMsg actual_ratio closest]

/-- `_calculate_confidence_score` (lines 133-137). -/
def ratioConfidenceScore (cfg : RatioConfig) (detected_issues : List String) : ℚ :=
  let max_possible_issue_count := cfg.target_ratios.length + 2
  pyDiv (detected_issues.length : ℚ) (max max_possible_issue_count 1 : ℚ)

/-- The `details` dict of `_build_ratio_analysis_details` (lines 43-52). -/
def ratioAnalysisDetails (cfg : RatioConfig) (width height : Nat)
    (actual_ratio : ℚ) : List (String × PyVal) :=
  [("width", PyVal.int width),
   ("height", PyVal.int height),
   ("actual_aspect_ratio", PyVal.rat actual_ratio),
   ("target_ratios",
     PyVal.list (cfg.target_ratios.map (fun t => PyVal.tup [PyVal.rat t.1, PyVal.rat t.2]))),
   ("tolerance", PyVal.rat cfg.tolerance)]

/-- The `try` body of `RatioDetector.detect` (lines 19-41).  `width / height`
raises `ZeroDivisionError` for a zero-height buffer. -/
def ratioBody (cfg : RatioConfig) (im : PyImg) : Except String DetectionResult := do
  let (height, width) := shapeHW im
  if height = 0 then throw "division by zero" else
  let actual_aspect_ratio : ℚ := pyDiv (width : ℚ) (height : ℚ)
  let dimension_violations := validateDimensionConstraints cfg width height
  let aspect_ratio_violations := validateAspectRatioCompliance cfg actual_aspect_ratio
  let detected_issues := dimension_violations ++ aspect_ratio_violations
  let has_ratio_issues := decide (detected_issues.length > 0)
  let detection_confidence := ratioConfidenceScore cfg detected_issues
  let analysis_details :=
    ratioAnalysisDetails cfg width height actual_aspect_ratio ++
      [("aspect_ratio_violations", PyVal.list (aspect_ratio_violations.map PyVal.str)),
       ("dimension_violations", PyVal.list (dimension_violations.map PyVal.str))]
  return createResult "ratio" has_ratio_issues detection_confidence
    (some analysis_details) (some detected_issues)

/-- `RatioDetector.detect` (lines 13-41). -/
def ratioDetect (cfg : RatioConfig) (img : Option PyImg) : DetectionResult :=
  guardDetect "ratio" "ratio_detection_error" img (ratioBody cfg)

/-! ### `detectors/background.py`

The numeric kernels living in cv2/sklearn (edge/corner/histogram dominant
color estimation, and the Lab-space Euclidean total-coverage scan) are passed
in as function parameters; the guard structure, the dict plumbing (including
the `"dominant_color"` key lookup that the fallback dict lacks), the threshold
comparison and the result assembly are modelled from the source. -/

/-- The analysis dict of `_analyze_background_dominance`: an association list;
the `except` fallback `_create_fallback_background_result` (lines 125-134)
produces a dict *without* a `"dominant_color"` key. -/
def backgroundFallbackResult (method : String) (error : String) :
    List (String × PyVal) :=
  [("background_color", PyVal.list [PyVal.int 0, PyVal.int 0, PyVal.int 0]),
   ("background_coverage", PyVal.rat 0),
   ("detection_method", PyVal.str method),
   ("error", PyVal.str error)]

/-- Python `d[key]` on an association-list dict: a missing key raises
`KeyError`. -/
def dictGet (d : List (String × PyVal)) (key : String) : Except String PyVal :=
  match d.find? (·.1 == key) with
  | some kv => Except.ok kv.2
  | none => Except.error ("KeyError: " ++ key)

/-- The issue string of line 44: `f"Background dominates {c*100:.1f}% of image"`. -/
def backgroundIssueMsg (coverage : ℚ) : String :=
  "Background dominates " ++ fmtPct1 coverage ++ "% of image"

/-- The `try` body of `BackgroundDetector.detect` (lines 30-55).  `analyze`
stands for `_analyze_background_dominance` (which never raises: each method
catches its own exceptions and falls back), `coverage` for
`_calculate_total_background_coverage` (cv2 Lab conversion + Euclidean scan,
which can raise). -/
def backgroundBody (cfg : BackgroundDetectionConfig)
    (analyze : BackgroundDetectionConfig → List (List FPix) → List (String × PyVal))
    (coverage : List (List FPix) → PyVal → Except String ℚ) (im : PyImg) :
    Except String DetectionResult := do
  let normalized_image ← ensure3ChannelBGR im
  let background_analysis := analyze cfg normalized_image
  let dominant_color ← dictGet background_analysis "dominant_color"
  let actual_coverage ← coverage normalized_image dominant_color
  let exceeds_threshold :=
    decide (actual_coverage > cfg.background_coverage_threshold)
  let detected_issues :=
    if exceeds_threshold then [backgroundIssueMsg actual_coverage] else []
  let detection_method ← dictGet background_analysis "detection_method"
  let analysis_details :=
    [("dominant_color", dominant_color),
     ("coverage_percentage", PyVal.rat actual_coverage),
     ("detection_method", detection_method)]
  return createResult "background" exceeds_threshold actual_coverage
    (some analysis_details) (some detected_issues)

/-- `BackgroundDetector.detect` (lines 24-58). -/
def backgroundDetect (cfg : BackgroundDetectionConfig)
    (analyze : BackgroundDetectionConfig → List (List FPix) → List (String × PyVal))
    (coverage : List (List FPix) → PyVal → Except String ℚ)
    (img : Option PyImg) : DetectionResult :=
  guardDetect "background" "background_detection_error" img
    (backgroundBody cfg analyze coverage)

/-! ### `detectors/composite.py` -/

/-- A sub-detector as the composite sees it: a name and a `detect` callable
whose raised exceptions surface as `Except.error`. -/
abbrev SubDetector := String × (Option PyImg → Except String DetectionResult)

/-- One iteration of the loop in `CompositeDetector.detect` (lines 21-30):
a raised exception becomes `detector._create_error_result(e, "detector_error")`. -/
def compositeSubResult (img : Option PyImg) (d : SubDetector) : DetectionResult :=
  match d.2 img with
  | Except.ok r => r
  | Except.error e => createErrorResult d.1 e "detector_error"

/-- `CompositeDetector.detect` (lines 13-45). -/
def compositeDetect (detectors : List SubDetector) (img : Option PyImg) :
    DetectionResult :=
  if detectors.isEmpty then createResult "composite" false 0 (some []) (some [])
  else
    let results := detectors.map (compositeSubResult img)
    let problematic_count := results.countP (·.is_problematic)
    let is_problematic := decide (problematic_count > 0)
    let confidence := pyDiv (problematic_count : ℚ) (detectors.length : ℚ)
    let details :=
      (detectors.zip results).map (fun dr => (dr.1.1, PyVal.dict dr.2.details))
    let all_issues := (results.map (·.issues)).flatten
    createResult "composite" is_problematic confidence (some details) (some all_issues)

/-! ### `core/config.py` — the `custom`-mode environment factory

An environment snapshot is an explicit `String → Option String` (per the
spec's own design note: no hidden process state).  Python's `float(...)` /
`int(...)` literal parsers are modelled for plain decimal input (optional
surrounding whitespace, sign, digits, decimal point, exponent); `inf`/`nan`
spellings and digit underscores are not needed by any claim. -/

/-- Value of a nonempty digit string. -/
def digitsVal (cs : List Char) : Nat :=
  cs.foldl (fun a c => 10 * a + (c.toNat - 48)) 0

/-- The exponent part of a float literal, after the `e`/`E`: the scale factor
`10^±k`, or `none` if malformed. -/
def pyExpPart : List Char → Option ℚ
  | [] => none
  | '+' :: ds =>
      if ds ≠ [] ∧ ds.all Char.isDigit then
        some (Rat.divInt ((10 : ℤ) ^ digitsVal ds) 1)
      else none
  | '-' :: ds =>
      if ds ≠ [] ∧ ds.all Char.isDigit then
        some (Rat.divInt 1 ((10 : ℤ) ^ digitsVal ds))
      else none
  | ds =>
      if ds.all Char.isDigit then some (Rat.divInt ((10 : ℤ) ^ digitsVal ds) 1)
      else none

/-- An unsigned float literal: `digits`, `digits.`, `.digits`, `digits.digits`,
each optionally followed by an exponent. -/
def pyFloatCore (cs : List Char) : Option ℚ :=
  let (ip, rest) := cs.span Char.isDigit
  match rest with
  | [] => if ip.isEmpty then none else some (digitsVal ip : ℚ)
  | '.' :: rest2 =>
      let (fp, rest3) := rest2.span Char.isDigit
      if ip.isEmpty ∧ fp.isEmpty then none
      else
        let base : ℚ :=
          pyAdd (digitsVal ip : ℚ)
            (Rat.divInt (digitsVal fp : ℤ) ((10 : ℤ) ^ fp.length))
        match rest3 with
        | [] => some base
        | c :: rest4 =>
            if c = 'e' ∨ c = 'E' then (pyExpPart rest4).map (pyMul base) else none
  | c :: rest2 =>
      if (c = 'e' ∨ c = 'E') ∧ ¬ ip.isEmpty then
        (pyExpPart rest2).map (pyMul (digitsVal ip : ℚ))
      else none

/-- Python `float(s)` on a plain decimal literal (leading/trailing whitespace
stripped, optional sign); `none` = `ValueError`. -/
def pyFloat? (s : String) : Option ℚ :=
  match stripChars s.toList with
  | '+' :: rest => pyFloatCore rest
  | '-' :: rest => (pyFloatCore rest).map Neg.neg
  | cs => pyFloatCore cs

/-- Python `int(s)`; `none` = `ValueError`. -/
def pyInt? (s : String) : Option ℤ :=
  let core (cs : List Char) : Option ℕ :=
    if cs ≠ [] ∧ cs.all Char.isDigit then some (digitsVal cs) else none
  match stripChars s.toList with
  | '+' :: rest => (core rest).map (fun n => (n : ℤ))
  | '-' :: rest => (core rest).map (fun n => -(n : ℤ))
  | cs => (core cs).map (fun n => (n : ℤ))

/-- An environment snapshot (`os.getenv`). -/
abbrev Env := String → Option String

/-- Build an environment from an association list. -/
def envOf (l : List (String × String)) : Env :=
  fun k => (l.find? (·.1 == k)).map (·.2)

/-- `ConfigFactory._get_environment_float` (lines 101-110): a *set* variable is
passed to `float(...)`, whose `ValueError` propagates (there is no fallback on
an unparseable value); a missing variable converts `str(default)`, which
round-trips to the default. -/
def getEnvironmentFloat (env : Env) (key : String) (default : ℚ) :
    Except String ℚ :=
  match env key with
  | some v =>
      match pyFloat? v with
      | some q => Except.ok q
      | none => Except.error ("could not convert string to float: " ++ v)
  | none => Except.ok default

/-- `ConfigFactory._get_environment_int` (lines 101-105, 112-115): same
structure as the float getter. -/
def getEnvironmentInt (env : Env) (key : String) (default : ℤ) :
    Except String ℤ :=
  match env key with
  | some v =>
      match pyInt? v with
      | some n => Except.ok n
      | none => Except.error ("invalid literal for int() with base 10: " ++ v)
  | none => Except.ok default

/-- `ConfigFactory._get_environment_bool` (lines 117-123): never raises;
anything other than `true/1/yes/on` (case-insensitive) is `False`. -/
def getEnvironmentBool (env : Env) (key : String) (default : Bool) : Bool :=
  match env key with
  | none => default
  | some v =>
      let l := lowerChars v.toList
      l == "true".toList || l == "1".toList || l == "yes".toList || l == "on".toList

/-- `ConfigFactory._get_environment_string` (lines 125-128). -/
def getEnvironmentString (env : Env) (key : String) (default : String) : String :=
  (env key).getD default

/-- `float(...)` on one colon-separated component. -/
def pyFloatChars? (cs : List Char) : Option ℚ :=
  match stripChars cs with
  | '+' :: rest => pyFloatCore rest
  | '-' :: rest => (pyFloatCore rest).map Neg.neg
  | cs' => pyFloatCore cs'

/-- One entry of the ratio list: `width, height = map(float, s.strip().split(":"))`;
any parse or arity failure skips the entry. -/
def parseRatioEntry (cs : List Char) : Option (ℚ × ℚ) :=
  match (splitOnChar ':' (stripChars cs)).map pyFloatChars? with
  | [some w, some h] => some (w, h)
  | _ => none

/-- `ConfigFactory._get_environment_ratios` (lines 130-146): split on commas,
skip malformed entries, fall back to the default list when nothing parses. -/
def getEnvironmentRatios (env : Env) (key : String)
    (default : List (ℚ × ℚ)) : List (ℚ × ℚ) :=
  match env key with
  | none => default
  | some v =>
      let ratios := (splitOnChar ',' v.toList).filterMap parseRatioEntry
      if ratios.isEmpty then default else ratios

/-- `_create_border_fill_config_from_env` (lines 176-207). -/
def createBorderFillConfigFromEnv (env : Env) : Except String BorderFillConfig := do
  let top ← getEnvironmentFloat env "PXG_BORDER_FILL_TOP_REGION_PERCENTAGE" (Rat.divInt 1 10)
  let bottom ← getEnvironmentFloat env "PXG_BORDER_FILL_BOTTOM_REGION_PERCENTAGE" (Rat.divInt 1 10)
  let blackThr ← getEnvironmentInt env "PXG_BORDER_FILL_BLACK_THRESHOLD" 30
  let whiteThr ← getEnvironmentInt env "PXG_BORDER_FILL_WHITE_THRESHOLD" 225
  let blackFill ← getEnvironmentFloat env "PXG_BORDER_FILL_BLACK_FILL_THRESHOLD" (Rat.divInt 1 20)
  let whiteFill ← getEnvironmentFloat env "PXG_BORDER_FILL_WHITE_FILL_THRESHOLD" (Rat.divInt 1 20)
  let checkTop := getEnvironmentBool env "PXG_BORDER_FILL_CHECK_TOP" false
  let checkBottom := getEnvironmentBool env "PXG_BORDER_FILL_CHECK_BOTTOM" true
  let uniformity ← getEnvironmentFloat env "PXG_BORDER_FILL_UNIFORMITY_REQUIRED" (Rat.divInt 9 10)
  return { top_region_percentage := top
           bottom_region_percentage := bottom
           black_threshold := blackThr
           white_threshold := whiteThr
           black_fill_threshold := blackFill
           white_fill_threshold := whiteFill
           check_top := checkTop
           check_bottom := checkBottom
           uniformity_required := uniformity }

/-- `_create_uniform_color_config_from_env` (lines 209-231). -/
def createUniformColorConfigFromEnv (env : Env) : Except String UniformColorConfig := do
  let delta ← getEnvironmentInt env "PXG_UNIFORM_COLOR_DELTA_THRESHOLD" 15
  let space := getEnvironmentString env "PXG_UNIFORM_COLOR_SPACE" "LAB"
  let cov ← getEnvironmentFloat env "PXG_UNIFORM_COLOR_COVERAGE_THRESHOLD" (Rat.divInt 17 20)
  let sample ← getEnvironmentInt env "PXG_UNIFORM_COLOR_SAMPLE_SIZE" 1000
  let ignore := getEnvironmentBool env "PXG_UNIFORM_COLOR_IGNORE_EDGES" true
  let edgePct ← getEnvironmentFloat env "PXG_UNIFORM_COLOR_EDGE_IGNORE_PERCENTAGE" (Rat.divInt 1 50)
  return { color_delta_threshold := delta
           color_space := space
           uniform_coverage_threshold := cov
           sample_size := sample
           ignore_edges := ignore
           edge_ignore_percentage := edgePct }

/-- `_create_background_config_from_env` (lines 233-258). -/
def createBackgroundConfigFromEnv (env : Env) :
    Except String BackgroundDetectionConfig := do
  let method := getEnvironmentString env "PXG_BACKGROUND_DETECTION_METHOD" "edge_based"
  let corner ← getEnvironmentFloat env "PXG_BACKGROUND_CORNER_SAMPLE_PERCENTAGE" (Rat.divInt 2 25)
  let edge ← getEnvironmentFloat env "PXG_BACKGROUND_EDGE_SAMPLE_PERCENTAGE" (Rat.divInt 1 20)
  let cov ← getEnvironmentFloat env "PXG_BACKGROUND_COVERAGE_THRESHOLD" (Rat.divInt 13 20)
  let tol ← getEnvironmentInt env "PXG_BACKGROUND_COLOR_TOLERANCE" 25
  let bins ← getEnvironmentInt env "PXG_BACKGROUND_HISTOGRAM_BINS" 64
  let dom ← getEnvironmentFloat env "PXG_BACKGROUND_DOMINANT_COLOR_THRESHOLD" (Rat.divInt 3 5)
  return { detection_method := method
           corner_sample_percentage := corner
           edge_sample_percentage := edge
           background_coverage_threshold := cov
           background_color_tolerance := tol
           histogram_bins := bins
           dominant_color_threshold := dom }

/-- `_create_ratio_config_from_env` (lines 260-288). -/
def createRatioConfigFromEnv (env : Env) : Except String RatioConfig := do
  let enabled := getEnvironmentBool env "PXG_RATIO_ENABLED" true
  let targets := getEnvironmentRatios env "PXG_RATIO_TARGET_RATIOS"
    [(16, 9), (4, 3), (1, 1), (3, 4), (9, 16)]
  let tolerance ← getEnvironmentFloat env "PXG_RATIO_TOLERANCE" (Rat.divInt 1 10)
  let checkMin := getEnvironmentBool env "PXG_RATIO_CHECK_MINIMUM_DIMENSIONS" true
  let minW ← getEnvironmentInt env "PXG_RATIO_MINIMUM_WIDTH" 100
  let minH ← getEnvironmentInt env "PXG_RATIO_MINIMUM_HEIGHT" 100
  let checkMax := getEnvironmentBool env "PXG_RATIO_CHECK_MAXIMUM_DIMENSIONS" false
  let maxW ← getEnvironmentInt env "PXG_RATIO_MAXIMUM_WIDTH" 10000
  let maxH ← getEnvironmentInt env "PXG_RATIO_MAXIMUM_HEIGHT" 10000
  return { enabled := enabled
           target_ratios := targets
           tolerance := tolerance
           check_minimum_dimensions := checkMin
           minimum_width := minW
           minimum_height := minH
           check_maximum_dimensions := checkMax
           maximum_width := maxW
           maximum_height := maxH }

/-- `_get_custom_enabled_detectors` (lines 148-163): per-detector flags, fixed
canonical order. -/
def getCustomEnabledDetectors (env : Env) : List String :=
  (if getEnvironmentBool env "PXG_DETECTOR_BORDER_FILL_ENABLED" true then
    ["border_fill"] else []) ++
  (if getEnvironmentBool env "PXG_DETECTOR_UNIFORM_COLOR_ENABLED" true then
    ["uniform_color"] else []) ++
  (if getEnvironmentBool env "PXG_DETECTOR_BACKGROUND_ENABLED" true then
    ["background"] else []) ++
  (if getEnvironmentBool env "PXG_DETECTOR_RATIO_ENABLED" true then
    ["ratio"] else [])

/-- `_create_custom_config` (lines 165-174): builds each sub-config in source
order; a `ValueError` from any numeric getter propagates out of the factory. -/
def createCustomConfig (env : Env) : Except String DetectionConfig := do
  let border ← createBorderFillConfigFromEnv env
  let uniform ← createUniformColorConfigFromEnv env
  let background ← createBackgroundConfigFromEnv env
  let ratio ← createRatioConfigFromEnv env
  return { border_fill := border
           uniform_color := uniform
           background := background
           ratio := ratio
           enabled_detectors := getCustomEnabledDetectors env }

/-! ## Theorems -/

/-- C3: every detector-produced `DetectionResult` (all of which are built by
`BaseDetector._create_result`) has confidence in `[0, 1]`; constructing with
confidence `1.5` yields `1.0` and with `-0.5` yields `0.0` — the clamp happens
at construction time. -/
theorem createResult_confidence_clamped :
    (∀ name p conf details issues,
        0 ≤ (createResult name p conf details issues).confidence ∧
          (createResult name p conf details issues).confidence ≤ 1) ∧
    (∀ name p details issues,
        (createResult name p (3/2) details issues).confidence = 1 ∧
          (createResult name p (-(1/2)) details issues).confidence = 0) := by
  refine ⟨fun name p conf details issues => ⟨le_max_left 0 _, ?_⟩,
    fun name p details issues => ⟨?_, ?_⟩⟩
  · exact max_le zero_le_one (min_le_left 1 conf)
  · norm_num [createResult]
  · norm_num [createResult]

/-- C4: the batch summary is the pure reduction with
`passed = total - problematic`, `total` the length of the analysis list and
`problematic` the count of problematic analyses. -/
theorem batch_summary_passed_eq (image_analyses : List ImageAnalysis) :
    (createBatchSummary image_analyses).total_images =
        (image_analyses.length : ℤ) ∧
    (createBatchSummary image_analyses).problematic_images =
        ((image_analyses.countP (·.is_problematic) : ℕ) : ℤ) ∧
    (createBatchSummary image_analyses).passed_images =
        (createBatchSummary image_analyses).total_images -
          (createBatchSummary image_analyses).problematic_images := by
  exact ⟨rfl, rfl, rfl⟩

/-- C2: the composite's confidence is `problematic_count / detector_count`, it
is problematic iff some sub-result is, its issues are the in-order
concatenation of the sub-issue lists (exceptions included, as error results),
and the empty detector list yields the non-problematic zero-confidence result
with empty details and issues. -/
theorem composite_aggregation (detectors : List SubDetector) (img : Option PyImg) :
    (detectors ≠ [] →
      (compositeDetect detectors img).confidence =
          (((detectors.map (compositeSubResult img)).countP (·.is_problematic) : ℕ) : ℚ) /
            ((detectors.length : ℕ) : ℚ) ∧
        ((compositeDetect detectors img).is_problematic = true ↔
          ∃ r ∈ detectors.map (compositeSubResult img), r.is_problematic = true) ∧
        (compositeDetect detectors img).issues =
          ((detectors.map (compositeSubResult img)).map (·.issues)).flatten) ∧
    (detectors = [] →
      compositeDetect detectors img =
        { detector_name := "composite", is_problematic := false, confidence := 0,
          details := [], issues := [] }) := by
  constructor
  · intro hne
    have hempty : detectors.isEmpty = false := by
      cases detectors with
      | nil => exact absurd rfl hne
      | cons a l => rfl
    have hlen : 0 < ((detectors.length : ℕ) : ℚ) := by
      have := List.length_pos.mpr hne
      exact_mod_cast this
    have hcount :
        ((detectors.map (compositeSubResult img)).countP (·.is_problematic) : ℕ) ≤
          detectors.length := by
      calc ((detectors.map (compositeSubResult img)).countP (·.is_problematic) : ℕ) ≤
          (detectors.map (compositeSubResult img)).length := List.countP_le_length _
        _ = detectors.length := List.length_map _ _
    have hconf :
        max 0 (min 1
          ((((detectors.map (compositeSubResult img)).countP (·.is_problematic) : ℕ) : ℚ) /
            ((detectors.length : ℕ) : ℚ))) =
          (((detectors.map (compositeSubResult img)).countP (·.is_problematic) : ℕ) : ℚ) /
            ((detectors.length : ℕ) : ℚ) := by
      have h0 : (0 : ℚ) ≤
          (((detectors.map (compositeSubResult img)).countP (·.is_problematic) : ℕ) : ℚ) /
            ((detectors.length : ℕ) : ℚ) :=
        div_nonneg (by positivity) (le_of_lt hlen)
      have h1 :
          (((detectors.map (compositeSubResult img)).countP (·.is_problematic) : ℕ) : ℚ) /
            ((detectors.length : ℕ) : ℚ) ≤ 1 := by
        rw [div_le_one hlen]
        exact_mod_cast hcount
      rw [min_eq_right h1, max_eq_right h0]
    refine ⟨?_, ?_, ?_⟩
    · simp only [compositeDetect, hempty, Bool.false_eq_true, if_false, createResult]
      rw [pyDiv_eq]
      exact hconf
    · simp only [compositeDetect, hempty, Bool.false_eq_true, if_false, createResult]
      simp only [decide_eq_true_eq]
      exact List.countP_pos_iff
    · simp only [compositeDetect, hempty, Bool.false_eq_true, if_false, createResult,
        Option.getD_some]
  · intro he
    subst he
    simp only [compositeDetect, List.isEmpty_nil, if_true, createResult]
    norm_num

/-- C2 witness: a concrete two-detector composite (one problematic, one clean)
and the concrete empty composite. -/
theorem composite_aggregation_witness :
    ((compositeDetect
        [("a", fun _ => Except.ok (createResult "a" true 1 none none)),
         ("b", fun _ => Except.ok (createResult "b" false 0 none none))] none).confidence =
        ((([(createResult "a" true 1 none none), (createResult "b" false 0 none none)].countP
            (·.is_problematic) : ℕ) : ℚ) / ((2 : ℕ) : ℚ)) ∧
      (compositeDetect [] none =
        { detector_name := "composite", is_problematic := false, confidence := 0,
          details := [], issues := [] })) := by
  constructor
  · have h := (composite_aggregation
      [("a", fun _ => Except.ok (createResult "a" true 1 none none)),
       ("b", fun _ => Except.ok (createResult "b" false 0 none none))] none).1
      (List.cons_ne_nil _ _)
    exact h.1
  · exact (composite_aggregation [] none).2 rfl

/-- Helper: the per-region analysis never reads the white-fill configuration
(`detect` only ever checks black fill). -/
lemma analyzeBorderRegion_white_irrelevant (cfg : BorderFillConfig) (wt : ℤ)
    (wft : ℚ) (gray : List (List ℤ)) (region : String) :
    analyzeBorderRegion { cfg with white_threshold := wt, white_fill_threshold := wft }
        gray region =
      analyzeBorderRegion cfg gray region := by
  simp [analyzeBorderRegion, extractRegionPixels, calculateBlackPixelPercentage,
    hasUniformColorFill, countBelow]

/-- Helper: lift the white-field irrelevance through the `detect` body. -/
lemma borderFillBody_white_irrelevant (cfg : BorderFillConfig) (wt : ℤ) (wft : ℚ)
    (im : PyImg) :
    borderFillBody { cfg with white_threshold := wt, white_fill_threshold := wft } im =
      borderFillBody cfg im := by
  simp [borderFillBody, analyzeBorderRegion_white_irrelevant, borderConfidenceScore]

/-- C9: the border-fill detector's output is independent of `white_threshold`
and `white_fill_threshold` — for every image and every two configs differing
only in those two fields, `detect` returns identical results (only black fill
is ever checked). -/
theorem borderFill_independent_of_white_config (cfg : BorderFillConfig)
    (wt : ℤ) (wft : ℚ) (img : Option PyImg) :
    borderFillDetect { cfg with white_threshold := wt, white_fill_threshold := wft }
        img =
      borderFillDetect cfg img := by
  cases img with
  | none => rfl
  | some im =>
      simp only [borderFillDetect, guardDetect,
        borderFillBody_white_irrelevant cfg wt wft im]

/-- The C6 image: 100×100 mid-gray (value 128 in all three channels) with the
top 10 rows set to black. -/
def c6Image : PyImg :=
  PyImg.multi 3
    (List.replicate 10 (List.replicate 100 ([0, 0, 0] : List ℤ)) ++
      List.replicate 90 (List.replicate 100 ([128, 128, 128] : List ℤ)))

/-- The border-fill configuration the claim *states* as the default mode:
`black_threshold = 30`, fill thresholds `0.05`, `uniformity_required = 0.90`,
top and bottom checks enabled (these are the values of the test fixtures and
of the custom-mode env defaults — not of `from_mode(DEFAULT)`). -/
def c6StatedConfig : BorderFillConfig :=
  { top_region_percentage := Rat.divInt 1 10
    bottom_region_percentage := Rat.divInt 1 10
    black_threshold := 30
    white_threshold := 225
    black_fill_threshold := Rat.divInt 1 20
    white_fill_threshold := Rat.divInt 1 20
    check_top := true
    check_bottom := true
    uniformity_required := Rat.divInt 9 10 }

set_option maxRecDepth 100000 in
/-- C6 counterexample: under the *actual* default-mode configuration
(`from_mode(DEFAULT)` = the dataclass defaults: `check_top = False`,
`black_threshold = 1`), the claim's image is not flagged at all — no
"Top border has black fill" issue is produced. -/
theorem c6_default_mode_not_problematic :
    (borderFillDetect {} (some c6Image)).is_problematic = false ∧
      (borderFillDetect {} (some c6Image)).issues = [] := by
  constructor
  · decide
  · decide

set_option maxRecDepth 100000 in
/-- C6 amended: with the configuration values the claim states (supplied
explicitly, as the repository's tests do), the detector flags the image and
reports the top border black fill. -/
theorem c6_stated_config_flags_top_border :
    (borderFillDetect c6StatedConfig (some c6Image)).is_problematic = true ∧
      (borderFillDetect c6StatedConfig (some c6Image)).issues =
        ["Top border has black fill: 100.0%"] := by
  constructor
  · decide
  · decide

/-- Helper: `_create_error_result` evaluates to the explicit error-result
record (confidence `1.0` survives the clamp). -/
lemma createErrorResult_eq (name e t : String) :
    createErrorResult name e t = errResult name t e := by
  unfold createErrorResult createResult errResult
  norm_num

/-- Helper: a raised body exception surfaces as the converted error result. -/
lemma guardDetect_error (name t : String) (img : Option PyImg) (im : PyImg)
    (body : PyImg → Except String DetectionResult) (e : String)
    (him : img = some im) (hv : validateImage img = true)
    (hb : body im = Except.error e) :
    guardDetect name t img body = errResult name t e := by
  subst him
  simp [guardDetect, hv, hb, createErrorResult_eq]

/-- Helper: an invalid buffer yields the `invalid_image` error result. -/
lemma guardDetect_invalid (name t : String) (img : Option PyImg)
    (body : PyImg → Except String DetectionResult)
    (hv : validateImage img = false) :
    guardDetect name t img body =
      errResult name "invalid_image" "Invalid image provided" := by
  cases img with
  | none => simp [guardDetect, createErrorResult_eq]
  | some im => simp [guardDetect, hv, createErrorResult_eq]

/-- C1: no detector ever raises out of `detect` (each is a total function into
`DetectionResult`); an invalid image or an internal exception is converted to
a problematic result with confidence `1.0`, `error_type`/`error_message`
detail keys, and the issue `"<detector> detection failed: <message>"` — and
the composite converts sub-detector exceptions the same way. -/
theorem detectors_convert_exceptions (img : Option PyImg) (e : String) :
    (∀ (cfg : BorderFillConfig) (im : PyImg), img = some im →
        validateImage img = true → borderFillBody cfg im = Except.error e →
        borderFillDetect cfg img = errResult "border_fill" "border_fill_error" e) ∧
    (∀ (cfg : UniformColorConfig) (subsample convertF : List FPix → List FPix)
        (im : PyImg), img = some im → validateImage img = true →
        uniformColorBody cfg subsample convertF im = Except.error e →
        uniformColorDetect cfg subsample convertF img =
          errResult "uniform_color" "uniform_color_detection_error" e) ∧
    (∀ (cfg : BackgroundDetectionConfig)
        (analyze : BackgroundDetectionConfig → List (List FPix) →
          List (String × PyVal))
        (coverage : List (List FPix) → PyVal → Except String ℚ) (im : PyImg),
        img = some im → validateImage img = true →
        backgroundBody cfg analyze coverage im = Except.error e →
        backgroundDetect cfg analyze coverage img =
          errResult "background" "background_detection_error" e) ∧
    (∀ (cfg : RatioConfig) (im : PyImg), img = some im →
        validateImage img = true → ratioBody cfg im = Except.error e →
        ratioDetect cfg img = errResult "ratio" "ratio_detection_error" e) ∧
    (validateImage img = false →
      (∀ cfg : BorderFillConfig,
          borderFillDetect cfg img =
            errResult "border_fill" "invalid_image" "Invalid image provided") ∧
      (∀ (cfg : UniformColorConfig) (subsample convertF : List FPix → List FPix),
          uniformColorDetect cfg subsample convertF img =
            errResult "uniform_color" "invalid_image" "Invalid image provided") ∧
      (∀ (cfg : BackgroundDetectionConfig) analyze coverage,
          backgroundDetect cfg analyze coverage img =
            errResult "background" "invalid_image" "Invalid image provided") ∧
      (∀ cfg : RatioConfig,
          ratioDetect cfg img =
            errResult "ratio" "invalid_image" "Invalid image provided")) ∧
    (∀ (ds₁ ds₂ : List SubDetector) (name : String)
        (f : Option PyImg → Except String DetectionResult),
        f img = Except.error e →
        (compositeDetect (ds₁ ++ (name, f) :: ds₂) img).is_problematic = true ∧
          (name ++ " detection failed: " ++ e) ∈
            (compositeDetect (ds₁ ++ (name, f) :: ds₂) img).issues) := by
  refine ⟨?_, ?_, ?_, ?_, ?_, ?_⟩
  · intro cfg im him hv hb
    exact guardDetect_error _ _ _ im _ e him hv hb
  · intro cfg subsample convertF im him hv hb
    exact guardDetect_error _ _ _ im _ e him hv hb
  · intro cfg analyze coverage im him hv hb
    exact guardDetect_error _ _ _ im _ e him hv hb
  · intro cfg im him hv hb
    exact guardDetect_error _ _ _ im _ e him hv hb
  · intro hv
    exact ⟨fun cfg => guardDetect_invalid _ _ _ _ hv,
      fun cfg subsample convertF => guardDetect_invalid _ _ _ _ hv,
      fun cfg analyze coverage => guardDetect_invalid _ _ _ _ hv,
      fun cfg => guardDetect_invalid _ _ _ _ hv⟩
  · intro ds₁ ds₂ name f hf
    have hsub : compositeSubResult img (name, f) = errResult name "detector_error" e := by
      simp [compositeSubResult, hf, createErrorResult_eq]
    have hmemd : (name, f) ∈ ds₁ ++ (name, f) :: ds₂ := by
      simp
    have hmem : errResult name "detector_error" e ∈
        (ds₁ ++ (name, f) :: ds₂).map (compositeSubResult img) := by
      rw [← hsub]
      exact List.mem_map_of_mem _ hmemd
    have hne : (ds₁ ++ (name, f) :: ds₂).isEmpty = false := by
      cases ds₁ <;> rfl
    have hcount : 0 <
        ((ds₁ ++ (name, f) :: ds₂).map (compositeSubResult img)).countP
          (·.is_problematic) :=
      List.countP_pos_iff.mpr ⟨errResult name "detector_error" e, hmem, rfl⟩
    constructor
    · simp only [compositeDetect, hne, Bool.false_eq_true, if_false, createResult]
      simpa using hcount
    · simp only [compositeDetect, hne, Bool.false_eq_true, if_false, createResult,
        Option.getD_some]
      refine List.mem_flatten.mpr ⟨[name ++ " detection failed: " ++ e], ?_, ?_⟩
      · have : (errResult name "detector_error" e).issues =
            [name ++ " detection failed: " ++ e] := rfl
        rw [← this]
        exact List.mem_map_of_mem _ hmem
      · simp

/-- C1 witness: a 2-channel buffer makes the border-fill body raise inside
`cv2.cvtColor` and the exception is converted; a rank-1 buffer is rejected as
`invalid_image`; a sub-detector raising through the composite is converted to
a `detector_error` result. -/
theorem detectors_convert_exceptions_witness :
    borderFillDetect {} (some (PyImg.multi 2 [[[0, 0]]])) =
        errResult "border_fill" "border_fill_error"
          "Invalid number of channels in input image" ∧
      ratioDetect {} (some (PyImg.rank1 [1])) =
        errResult "ratio" "invalid_image" "Invalid image provided" ∧
      (compositeDetect [("det", fun _ => Except.error "boom")] none).is_problematic =
        true ∧
      "det detection failed: boom" ∈
        (compositeDetect [("det", fun _ => Except.error "boom")] none).issues := by
  refine ⟨?_, ?_, ?_, ?_⟩
  · exact (detectors_convert_exceptions (some (PyImg.multi 2 [[[0, 0]]]))
      "Invalid number of channels in input image").1 {} _ rfl rfl rfl
  · exact ((detectors_convert_exceptions (some (PyImg.rank1 [1])) "x").2.2.2.2.1
      rfl).2.2.2 {}
  · exact ((detectors_convert_exceptions none "boom").2.2.2.2.2 [] [] "det"
      (fun _ => Except.error "boom") rfl).1
  · exact ((detectors_convert_exceptions none "boom").2.2.2.2.2 [] [] "det"
      (fun _ => Except.error "boom") rfl).2

/-- The absolute ratio difference the scan computes for a target tuple. -/
def ratioDist (actual : ℚ) (t : ℚ × ℚ) : ℚ := pyAbs (pySub actual (pyDiv t.1 t.2))

lemma ratioDist_eq (actual : ℚ) (t : ℚ × ℚ) :
    ratioDist actual t = |actual - t.1 / t.2| := by
  rw [ratioDist, pyDiv_eq, pySub_eq, pyAbs_eq]

/-- Helper: the scan short-circuits on the first in-order target within
tolerance, whatever the accumulators hold. -/
lemma findClosestGo_first_match (tol actual : ℚ) (pre : List (ℚ × ℚ)) :
    ∀ (t : ℚ × ℚ) (post : List (ℚ × ℚ)) (closest : Option (ℚ × ℚ))
      (smallest : Option ℚ),
      (∀ u ∈ pre, ¬ ratioDist actual u ≤ tol) → ratioDist actual t ≤ tol →
      findClosestGo tol actual (pre ++ t :: post) closest smallest = some t := by
  induction pre with
  | nil =>
      intro t post closest smallest _ ht
      obtain ⟨w, h⟩ := t
      have ht' : pyAbs (pySub actual (pyDiv w h)) ≤ tol := ht
      simp only [List.nil_append, findClosestGo]
      rw [if_pos ht']
  | cons u pre' ih =>
      intro t post closest smallest hall ht
      obtain ⟨w, h⟩ := u
      have hu : ¬ pyAbs (pySub actual (pyDiv w h)) ≤ tol :=
        hall (w, h) (List.mem_cons_self _ _)
      have hall' : ∀ v ∈ pre', ¬ ratioDist actual v ≤ tol :=
        fun v hv => hall v (List.mem_cons_of_mem _ hv)
      simp only [List.cons_append, findClosestGo]
      rw [if_neg hu]
      split
      · exact ih t post _ _ hall' ht
      · exact ih t post _ _ hall' ht

/-- Helper: when no remaining target is within tolerance, the scan returns a
minimizer of the absolute difference among the incumbent and the rest. -/
lemma findClosestGo_min (tol actual : ℚ) (l : List (ℚ × ℚ)) :
    ∀ b : ℚ × ℚ,
      (∀ u ∈ l, ¬ ratioDist actual u ≤ tol) →
      ∃ c, findClosestGo tol actual l (some b) (some (ratioDist actual b)) = some c ∧
        (c = b ∨ c ∈ l) ∧ ratioDist actual c ≤ ratioDist actual b ∧
        ∀ u ∈ l, ratioDist actual c ≤ ratioDist actual u := by
  induction l with
  | nil =>
      intro b _
      exact ⟨b, rfl, Or.inl rfl, le_refl _, by simp⟩
  | cons u rest ih =>
      intro b hall
      obtain ⟨w, h⟩ := u
      have hu : ¬ pyAbs (pySub actual (pyDiv w h)) ≤ tol :=
        hall (w, h) (List.mem_cons_self _ _)
      have hall' : ∀ v ∈ rest, ¬ ratioDist actual v ≤ tol :=
        fun v hv => hall v (List.mem_cons_of_mem _ hv)
      simp only [findClosestGo]
      rw [if_neg hu]
      split
      · rename_i hcond
        have hlt : pyAbs (pySub actual (pyDiv w h)) < ratioDist actual b := by
          simpa using hcond
        obtain ⟨c, hgo, hmem, hle, hmin⟩ := ih (w, h) hall'
        refine ⟨c, hgo, ?_, ?_, ?_⟩
        · rcases hmem with hc | hc
          · exact Or.inr (hc ▸ List.mem_cons_self _ _)
          · exact Or.inr (List.mem_cons_of_mem _ hc)
        · exact le_trans hle (le_of_lt hlt)
        · intro v hv
          rcases List.mem_cons.mp hv with hv | hv
          · exact hv ▸ hle
          · exact hmin v hv
      · rename_i hcond
        have hge : ratioDist actual b ≤ pyAbs (pySub actual (pyDiv w h)) := by
          have : ¬ pyAbs (pySub actual (pyDiv w h)) < ratioDist actual b := by
            simpa using hcond
          exact le_of_not_lt this
        obtain ⟨c, hgo, hmem, hle, hmin⟩ := ih b hall'
        refine ⟨c, hgo, ?_, hle, ?_⟩
        · rcases hmem with hc | hc
          · exact Or.inl hc
          · exact Or.inr (List.mem_cons_of_mem _ hc)
        · intro v hv
          rcases List.mem_cons.mp hv with hv | hv
          · exact hv ▸ le_trans hle hge
          · exact hmin v hv

/-- C7: the ratio scan accepts the first target in configured order whose
absolute difference is within tolerance, recording no ratio violation
(order-dependent first match); when no target is within tolerance it records
exactly one violation carrying the "Closest" annotation for a target that
minimizes the absolute difference over the whole list. -/
theorem ratio_first_match_then_closest (cfg : RatioConfig) (actual : ℚ) :
    (∀ (pre : List (ℚ × ℚ)) (t : ℚ × ℚ) (post : List (ℚ × ℚ)),
        cfg.target_ratios = pre ++ t :: post →
        (∀ u ∈ pre, ¬ |actual - u.1 / u.2| ≤ cfg.tolerance) →
        |actual - t.1 / t.2| ≤ cfg.tolerance →
        findClosestTargetRatio cfg actual = some t ∧
          validateAspectRatioCompliance cfg actual = []) ∧
    (cfg.target_ratios ≠ [] →
        (∀ u ∈ cfg.target_ratios, ¬ |actual - u.1 / u.2| ≤ cfg.tolerance) →
        ∃ c ∈ cfg.target_ratios,
          (∀ u ∈ cfg.target_ratios, |actual - c.1 / c.2| ≤ |actual - u.1 / u.2|) ∧
            validateAspectRatioCompliance cfg actual = [ratioClosestMsg actual c]) := by
  constructor
  · intro pre t post hsplit hall ht
    simp only [← ratioDist_eq] at hall ht
    have hne : cfg.target_ratios.isEmpty = false := by
      rw [hsplit]; cases pre <;> rfl
    have hgo : findClosestTargetRatio cfg actual = some t := by
      rw [findClosestTargetRatio, hne]
      simp only [Bool.false_eq_true, if_false, hsplit]
      exact findClosestGo_first_match cfg.tolerance actual pre t post none none hall ht
    refine ⟨hgo, ?_⟩
    rw [validateAspectRatioCompliance, hgo]
    have htol : isRatioWithinTolerance cfg actual (pyDiv t.1 t.2) = true := by
      rw [isRatioWithinTolerance]
      exact decide_eq_true ht
    show (if isRatioWithinTolerance cfg actual (pyDiv t.1 t.2) = true then []
      else [ratioClosestMsg actual t]) = ([] : List String)
    rw [htol]
    simp
  · intro hne hall
    simp only [← ratioDist_eq] at hall
    obtain ⟨u, rest, hsplit⟩ := List.exists_cons_of_ne_nil hne
    obtain ⟨w, h⟩ := u
    have hu : ¬ pyAbs (pySub actual (pyDiv w h)) ≤ cfg.tolerance := by
      have := hall (w, h) (by rw [hsplit]; exact List.mem_cons_self _ _)
      exact this
    have hall' : ∀ v ∈ rest, ¬ ratioDist actual v ≤ cfg.tolerance := by
      intro v hv
      exact hall v (by rw [hsplit]; exact List.mem_cons_of_mem _ hv)
    obtain ⟨c, hgo, hmem, hle, hmin⟩ := findClosestGo_min cfg.tolerance actual rest
      (w, h) hall'
    have hmemc : c ∈ cfg.target_ratios := by
      rw [hsplit]
      rcases hmem with hc | hc
      · exact hc ▸ List.mem_cons_self _ _
      · exact List.mem_cons_of_mem _ hc
    have hfind : findClosestTargetRatio cfg actual = some c := by
      have hne' : cfg.target_ratios.isEmpty = false := by
        rw [hsplit]; rfl
      rw [findClosestTargetRatio, hne']
      simp only [Bool.false_eq_true, if_false, hsplit, findClosestGo]
      rw [if_neg hu]
      split
      · exact hgo
      · rename_i hcond
        simp at hcond
    refine ⟨c, hmemc, ?_, ?_⟩
    · intro v hv
      simp only [← ratioDist_eq]
      rw [hsplit] at hv
      rcases List.mem_cons.mp hv with hv | hv
      · exact hv ▸ hle
      · exact hmin v hv
    · rw [validateAspectRatioCompliance, hfind]
      have htol : isRatioWithinTolerance cfg actual (pyDiv c.1 c.2) = false := by
        rw [isRatioWithinTolerance]
        exact decide_eq_false (hall c hmemc)
      show (if isRatioWithinTolerance cfg actual (pyDiv c.1 c.2) = true then []
        else [ratioClosestMsg actual c]) = [ratioClosestMsg actual c]
      rw [htol]
      simp

/-- C7 witness: with the default target list and tolerance, a 16:9 buffer
matches the first target with no violation, and a ratio of 3.0 produces
exactly one violation naming a global minimizer. -/
theorem ratio_first_match_then_closest_witness :
    (findClosestTargetRatio {} (Rat.divInt 16 9) = some (16, 9) ∧
        validateAspectRatioCompliance {} (Rat.divInt 16 9) = []) ∧
      (∃ c ∈ ({} : RatioConfig).target_ratios,
        (∀ u ∈ ({} : RatioConfig).target_ratios,
            |(3 : ℚ) - c.1 / c.2| ≤ |(3 : ℚ) - u.1 / u.2|) ∧
          validateAspectRatioCompliance {} 3 = [ratioClosestMsg 3 c]) := by
  constructor
  · exact (ratio_first_match_then_closest {} (Rat.divInt 16 9)).1 [] (16, 9)
      [(4, 3), (1, 1), (3, 4), (9, 16)] rfl
      (fun u hu => absurd hu (List.not_mem_nil u))
      (by norm_num [Rat.divInt_eq_div])
  · exact (ratio_first_match_then_closest {} 3).2 (List.cons_ne_nil _ _)
      (by intro u hu; fin_cases hu <;> norm_num [Rat.divInt_eq_div, lt_abs])

/-- The channel triple of a finite pixel. -/
def fpixVal (p : FPix) : ℚ × ℚ × ℚ := (p.1.getD 0, p.2.1.getD 0, p.2.2.getD 0)

/-- Helper: the dominant-color estimate is always finite. -/
lemma findDominantColor_finite (cs : List FPix) :
    ∃ a b c : ℚ, findDominantColor cs = (some a, some b, some c) := by
  simp only [findDominantColor]
  split
  · exact ⟨0, 0, 0, rfl⟩
  · split
    · exact ⟨0, 0, 0, rfl⟩
    · split
      · exact ⟨_, _, _, rfl⟩
      · exact ⟨_, _, _, rfl⟩

/-- C8: the uniform-color coverage is the fraction of valid (finite) sampled
pixels whose per-channel absolute difference from the dominant color is within
the delta threshold on every channel (Chebyshev, not Euclidean); the result is
problematic exactly when coverage reaches the coverage threshold, and the
returned confidence equals the coverage. -/
theorem uniform_coverage_is_chebyshev_fraction (cfg : UniformColorConfig)
    (cs : List FPix) (sc tot : ℕ) (hval : validPixels cs ≠ []) :
    calculateColorUniformityCoverage cfg.color_delta_threshold cs
        (findDominantColor cs) =
      (((validPixels cs).countP
          (chebyshevClose (cfg.color_delta_threshold : ℚ)
            (fpixVal (findDominantColor cs))) : ℕ) : ℚ) /
        (((validPixels cs).length : ℕ) : ℚ) ∧
      (uniformColorResultCore cfg cs sc tot).is_problematic =
        decide (calculateColorUniformityCoverage cfg.color_delta_threshold cs
            (findDominantColor cs) ≥ cfg.uniform_coverage_threshold) ∧
      (uniformColorResultCore cfg cs sc tot).confidence =
        calculateColorUniformityCoverage cfg.color_delta_threshold cs
          (findDominantColor cs) := by
  have hcs : cs ≠ [] := by
    intro h
    exact hval (by simp [validPixels, h])
  have hcse : cs.isEmpty = false := by
    cases cs with
    | nil => exact absurd rfl hcs
    | cons x l => rfl
  have hve : (validPixels cs).isEmpty = false := by
    cases hv : validPixels cs with
    | nil => exact absurd hv hval
    | cons x l => rfl
  obtain ⟨a, b, c, hdom⟩ := findDominantColor_finite cs
  have hcov : calculateColorUniformityCoverage cfg.color_delta_threshold cs
      (findDominantColor cs) =
        (((validPixels cs).countP
            (chebyshevClose (cfg.color_delta_threshold : ℚ)
              (fpixVal (findDominantColor cs))) : ℕ) : ℚ) /
          (((validPixels cs).length : ℕ) : ℚ) := by
    rw [hdom]
    simp only [calculateColorUniformityCoverage, hcse, Bool.false_eq_true, if_false,
      hve, fpixVal, Option.getD_some]
    rw [pyDiv_eq]
  have hlen : 0 < (((validPixels cs).length : ℕ) : ℚ) := by
    have := List.length_pos.mpr hval
    exact_mod_cast this
  have h0 : 0 ≤ calculateColorUniformityCoverage cfg.color_delta_threshold cs
      (findDominantColor cs) := by
    rw [hcov]
    exact div_nonneg (by positivity) (le_of_lt hlen)
  have h1 : calculateColorUniformityCoverage cfg.color_delta_threshold cs
      (findDominantColor cs) ≤ 1 := by
    rw [hcov, div_le_one hlen]
    exact_mod_cast List.countP_le_length _
  refine ⟨hcov, rfl, ?_⟩
  show max 0 (min 1 (calculateColorUniformityCoverage cfg.color_delta_threshold cs
    (findDominantColor cs))) = _
  rw [min_eq_right h1, max_eq_right h0]

/-- C8 witness: a concrete two-pixel sample (black and a far-away bright
pixel) under the default uniform-color config. -/
theorem uniform_coverage_is_chebyshev_fraction_witness :
    calculateColorUniformityCoverage
        ({} : UniformColorConfig).color_delta_threshold
        [((some 0, some 0, some 0) : FPix), (some 100, some 100, some 100)]
        (findDominantColor
          [((some 0, some 0, some 0) : FPix), (some 100, some 100, some 100)]) =
      ((([((0 : ℚ), (0 : ℚ), (0 : ℚ)), (100, 100, 100)].countP
          (chebyshevClose ((15 : ℤ) : ℚ)
            (fpixVal (findDominantColor
              [((some 0, some 0, some 0) : FPix),
                (some 100, some 100, some 100)]))) : ℕ) : ℚ) / ((2 : ℕ) : ℚ)) := by
  have h := (uniform_coverage_is_chebyshev_fraction {}
    [((some 0, some 0, some 0) : FPix), (some 100, some 100, some 100)] 2 4
    (by decide)).1
  exact h

/-- Helper: a zero margin empties the numpy slice (`xs[0:-0] = xs[0:0]`). -/
lemma npSliceMargin_zero {α : Type} (xs : List α) : npSliceMargin 0 xs = [] := rfl

/-- C10: when edge-ignoring is on and the margin rounds to zero pixels in
either dimension, the interior slice is empty, so the uniform-color detector
returns non-problematic with confidence `0.0` — for every pixel content, every
subsampling choice and every color transform (given a positive coverage
threshold and a nonnegative sample size, as in every shipped config). -/
theorem uniform_zero_margin_never_flags (cfg : UniformColorConfig)
    (subsample convertF : List FPix → List FPix) (im : PyImg)
    (rows : List (List FPix)) (hrows : ensure3ChannelBGR im = Except.ok rows)
    (hedges : cfg.ignore_edges = true)
    (hmargin :
      pyIntNat (pyMul ((rows.length : ℕ) : ℚ) cfg.edge_ignore_percentage) = 0 ∨
        pyIntNat (pyMul ((gridWidth rows : ℕ) : ℚ) cfg.edge_ignore_percentage) = 0)
    (hthr : 0 < cfg.uniform_coverage_threshold)
    (hsample : 0 ≤ cfg.sample_size) :
    (uniformColorDetect cfg subsample convertF (some im)).is_problematic = false ∧
      (uniformColorDetect cfg subsample convertF (some im)).confidence = 0 := by
  have hvalid : validateImage (some im) = true := by
    cases im with
    | rank0 v => simp [ensure3ChannelBGR] at hrows
    | rank1 xs => simp [ensure3ChannelBGR] at hrows
    | gray g => rfl
    | multi c r => rfl
  have hempty :
      ((npSliceMargin
          (pyIntNat (pyMul ((rows.length : ℕ) : ℚ) cfg.edge_ignore_percentage))
          rows).map
        (npSliceMargin
          (pyIntNat (pyMul ((gridWidth rows : ℕ) : ℚ)
            cfg.edge_ignore_percentage)))).flatten = [] := by
    rcases hmargin with hm | hm
    · rw [hm, npSliceMargin_zero]
      rfl
    · rw [hm]
      simp [npSliceMargin_zero, List.flatten_eq_nil_iff]
  have hextract : extractRepresentativePixels cfg subsample rows = Except.ok [] := by
    simp only [extractRepresentativePixels, hedges, if_true, hempty]
    rw [limitSampleSize]
    have hc : ¬ ((([] : List FPix).length : ℤ) > cfg.sample_size) := by
      simpa using not_lt.mpr hsample
    rw [if_neg hc]
  have hbody : uniformColorBody cfg subsample convertF im =
      Except.ok (uniformColorResultCore cfg [] 0
        (rows.length * gridWidth rows)) := by
    rw [uniformColorBody, hrows]
    show (extractRepresentativePixels cfg subsample rows).bind _ = _
    rw [hextract]
    show Except.ok (uniformColorResultCore cfg
      (convertColorSpacePixels convertF []) ([] : List FPix).length
      (rows.length * gridWidth rows)) = _
    rfl
  have hres : uniformColorDetect cfg subsample convertF (some im) =
      uniformColorResultCore cfg [] 0 (rows.length * gridWidth rows) := by
    simp only [uniformColorDetect, guardDetect, hvalid, if_true, hbody]
  have hcov : calculateColorUniformityCoverage cfg.color_delta_threshold
      ([] : List FPix) (findDominantColor []) = 0 := rfl
  have hexceeds : decide ((0 : ℚ) ≥ cfg.uniform_coverage_threshold) = false :=
    decide_eq_false (not_le.mpr hthr)
  rw [hres]
  constructor
  · show decide (calculateColorUniformityCoverage cfg.color_delta_threshold
      ([] : List FPix) (findDominantColor []) ≥ cfg.uniform_coverage_threshold) =
      false
    rw [hcov]
    exact hexceeds
  · show max 0 (min 1 (calculateColorUniformityCoverage cfg.color_delta_threshold
      ([] : List FPix) (findDominantColor []))) = 0
    rw [hcov]
    norm_num

/-- C10 witness: a 10×10 constant-color image at the default config
(`edge_ignore_percentage = 0.02`, so the margin is `int(10*0.02) = 0`) is not
flagged even though it is perfectly uniform. -/
theorem uniform_zero_margin_never_flags_witness :
    (uniformColorDetect {} id id
        (some (PyImg.multi 3
          (List.replicate 10 (List.replicate 10 ([5, 5, 5] : List ℤ)))))).is_problematic =
        false ∧
      (uniformColorDetect {} id id
        (some (PyImg.multi 3
          (List.replicate 10 (List.replicate 10 ([5, 5, 5] : List ℤ)))))).confidence =
        0 := by
  refine uniform_zero_margin_never_flags {} id id _
    (List.replicate 10 (List.replicate 10
      ((some 5, some 5, some 5) : FPix))) rfl rfl (Or.inl (by decide))
    ?_ ?_
  · show (0 : ℚ) < Rat.divInt 17 20
    rw [Rat.divInt_eq_div]
    norm_num
  · norm_num

/-- An environment with every `PXG_` variable set to a (valid) non-default
value. -/
def c5SampleEnv : Env :=
  envOf
    [("PXG_BORDER_FILL_TOP_REGION_PERCENTAGE", "0.2"),
     ("PXG_BORDER_FILL_BOTTOM_REGION_PERCENTAGE", "0.25"),
     ("PXG_BORDER_FILL_BLACK_THRESHOLD", "25"),
     ("PXG_BORDER_FILL_WHITE_THRESHOLD", "200"),
     ("PXG_BORDER_FILL_BLACK_FILL_THRESHOLD", "0.1"),
     ("PXG_BORDER_FILL_WHITE_FILL_THRESHOLD", "0.3"),
     ("PXG_BORDER_FILL_CHECK_TOP", "true"),
     ("PXG_BORDER_FILL_CHECK_BOTTOM", "no"),
     ("PXG_BORDER_FILL_UNIFORMITY_REQUIRED", "0.8"),
     ("PXG_UNIFORM_COLOR_DELTA_THRESHOLD", "20"),
     ("PXG_UNIFORM_COLOR_SPACE", "RGB"),
     ("PXG_UNIFORM_COLOR_COVERAGE_THRESHOLD", "0.9"),
     ("PXG_UNIFORM_COLOR_SAMPLE_SIZE", "500"),
     ("PXG_UNIFORM_COLOR_IGNORE_EDGES", "0"),
     ("PXG_UNIFORM_COLOR_EDGE_IGNORE_PERCENTAGE", "0.05"),
     ("PXG_BACKGROUND_DETECTION_METHOD", "histogram_based"),
     ("PXG_BACKGROUND_CORNER_SAMPLE_PERCENTAGE", "0.1"),
     ("PXG_BACKGROUND_EDGE_SAMPLE_PERCENTAGE", "0.07"),
     ("PXG_BACKGROUND_COVERAGE_THRESHOLD", "0.75"),
     ("PXG_BACKGROUND_COLOR_TOLERANCE", "30"),
     ("PXG_BACKGROUND_HISTOGRAM_BINS", "32"),
     ("PXG_BACKGROUND_DOMINANT_COLOR_THRESHOLD", "0.5"),
     ("PXG_RATIO_ENABLED", "yes"),
     ("PXG_RATIO_TARGET_RATIOS", "16:9,21:9"),
     ("PXG_RATIO_TOLERANCE", "0.05"),
     ("PXG_RATIO_CHECK_MINIMUM_DIMENSIONS", "on"),
     ("PXG_RATIO_MINIMUM_WIDTH", "50"),
     ("PXG_RATIO_MINIMUM_HEIGHT", "60"),
     ("PXG_RATIO_CHECK_MAXIMUM_DIMENSIONS", "true"),
     ("PXG_RATIO_MAXIMUM_WIDTH", "2000"),
     ("PXG_RATIO_MAXIMUM_HEIGHT", "3000"),
     ("PXG_DETECTOR_BORDER_FILL_ENABLED", "true"),
     ("PXG_DETECTOR_UNIFORM_COLOR_ENABLED", "false"),
     ("PXG_DETECTOR_BACKGROUND_ENABLED", "1"),
     ("PXG_DETECTOR_RATIO_ENABLED", "off")]

/-- The config `c5SampleEnv` parses to: every field read from its named
variable. -/
def c5SampleConfig : DetectionConfig :=
  { border_fill :=
      { top_region_percentage := Rat.divInt 1 5
        bottom_region_percentage := Rat.divInt 1 4
        black_threshold := 25
        white_threshold := 200
        black_fill_threshold := Rat.divInt 1 10
        white_fill_threshold := Rat.divInt 3 10
        check_top := true
        check_bottom := false
        uniformity_required := Rat.divInt 4 5 }
    uniform_color :=
      { color_delta_threshold := 20
        color_space := "RGB"
        uniform_coverage_threshold := Rat.divInt 9 10
        sample_size := 500
        ignore_edges := false
        edge_ignore_percentage := Rat.divInt 1 20 }
    background :=
      { detection_method := "histogram_based"
        corner_sample_percentage := Rat.divInt 1 10
        edge_sample_percentage := Rat.divInt 7 100
        background_coverage_threshold := Rat.divInt 3 4
        background_color_tolerance := 30
        histogram_bins := 32
        dominant_color_threshold := Rat.divInt 1 2 }
    ratio :=
      { enabled := true
        target_ratios := [(16, 9), (21, 9)]
        tolerance := Rat.divInt 1 20
        check_minimum_dimensions := true
        minimum_width := 50
        minimum_height := 60
        check_maximum_dimensions := true
        maximum_width := 2000
        maximum_height := 3000 }
    enabled_detectors := ["border_fill", "background"] }

/-- The documented per-field defaults of the custom mode (note they differ
from the dataclass defaults on the border luminance thresholds: 30/225 versus
1/255). -/
def c5DefaultCustomConfig : DetectionConfig :=
  { border_fill :=
      { top_region_percentage := Rat.divInt 1 10
        bottom_region_percentage := Rat.divInt 1 10
        black_threshold := 30
        white_threshold := 225
        black_fill_threshold := Rat.divInt 1 20
        white_fill_threshold := Rat.divInt 1 20
        check_top := false
        check_bottom := true
        uniformity_required := Rat.divInt 9 10 }
    uniform_color := {}
    background := {}
    ratio := {}
    enabled_detectors := ["border_fill", "uniform_color", "background", "ratio"] }

/-- C5 counterexample: a malformed numeric value raises `ValueError` out of
the custom-config factory — there is no fallback-on-invalid for numeric
fields, so building the custom config does *not* always succeed. -/
theorem custom_config_raises_on_malformed_float :
    createCustomConfig (envOf [("PXG_RATIO_TOLERANCE", "abc")]) =
      Except.error "could not convert string to float: abc" := rfl

/-- C5 amended: every field is read from its named environment variable, and a
*missing* variable falls back to its documented default (booleans parse
anything unrecognised as false, and malformed ratio-list entries are skipped
with the default list substituted) — but an unparseable numeric value raises. -/
theorem custom_config_env_reads_and_fallback_on_missing :
    createCustomConfig (fun _ => none) = Except.ok c5DefaultCustomConfig ∧
      createCustomConfig c5SampleEnv = Except.ok c5SampleConfig := by
  constructor
  · rfl
  · rfl

end Pixelguard
